import Mathlib

/-!
Verification of the instanced-cube-mesh demo (`src/index.ts`).

The demo builds a 24-vertex / 36-index cube, generates per-instance
offset/color records from a random source, and assembles a `BufferMesh`
with two vertex streams (per-vertex and per-instance).  We embed the
geometry construction, the instance generation loop, the mesh assembly
and the shader pair as executable Lean definitions over rationals and
prove the specified properties about them.
-/

/-- A 3-component vector, standing for the `x, y, z` float triples of the
demo.  We use rationals: every literal in the source is exact. -/
structure Vec3 where
  x : ℚ
  y : ℚ
  z : ℚ
  deriving DecidableEq, Repr

/-- Componentwise subtraction of vectors. -/
def Vec3.sub (a b : Vec3) : Vec3 :=
  ⟨a.x - b.x, a.y - b.y, a.z - b.z⟩

/-- Componentwise addition of vectors. -/
def Vec3.add (a b : Vec3) : Vec3 :=
  ⟨a.x + b.x, a.y + b.y, a.z + b.z⟩

/-- Scalar multiple of a vector. -/
def Vec3.smul (c : ℚ) (a : Vec3) : Vec3 :=
  ⟨c * a.x, c * a.y, c * a.z⟩

/-- Cross product of two vectors. -/
def Vec3.cross (a b : Vec3) : Vec3 :=
  ⟨a.y * b.z - a.z * b.y, a.z * b.x - a.x * b.z, a.x * b.y - a.y * b.x⟩

/-- Dot product of two vectors. -/
def Vec3.dot (a b : Vec3) : ℚ :=
  a.x * b.x + a.y * b.y + a.z * b.z

/-- A per-vertex record of the demo: position and normal
(the `[x, y, z, nx, ny, nz]` layout of the `vertices` array). -/
structure VertexRecord where
  position : Vec3
  normal : Vec3
  deriving DecidableEq, Repr

instance : Inhabited Vec3 := ⟨⟨0, 0, 0⟩⟩

instance : Inhabited VertexRecord := ⟨⟨default, default⟩⟩

/-- Flatten a vertex record into its six floats, in source order. -/
def VertexRecord.flatten (v : VertexRecord) : List ℚ :=
  [v.position.x, v.position.y, v.position.z, v.normal.x, v.normal.y, v.normal.z]

/-- The 24 cube vertices of `src/index.ts` lines 100-112, in source order:
Up, Down, Left, Right, Front, Back face, four corners each, with the face
normal repeated on every corner. -/
def buildCubeVertices (size : ℚ) : List VertexRecord :=
  [ -- Up face, normal (0,1,0)
    ⟨⟨-size,  size, -size⟩, ⟨0, 1, 0⟩⟩,
    ⟨⟨ size,  size, -size⟩, ⟨0, 1, 0⟩⟩,
    ⟨⟨ size,  size,  size⟩, ⟨0, 1, 0⟩⟩,
    ⟨⟨-size,  size,  size⟩, ⟨0, 1, 0⟩⟩,
    -- Down face, normal (0,-1,0)
    ⟨⟨-size, -size, -size⟩, ⟨0, -1, 0⟩⟩,
    ⟨⟨ size, -size, -size⟩, ⟨0, -1, 0⟩⟩,
    ⟨⟨ size, -size,  size⟩, ⟨0, -1, 0⟩⟩,
    ⟨⟨-size, -size,  size⟩, ⟨0, -1, 0⟩⟩,
    -- Left face, normal (-1,0,0)
    ⟨⟨-size,  size, -size⟩, ⟨-1, 0, 0⟩⟩,
    ⟨⟨-size,  size,  size⟩, ⟨-1, 0, 0⟩⟩,
    ⟨⟨-size, -size,  size⟩, ⟨-1, 0, 0⟩⟩,
    ⟨⟨-size, -size, -size⟩, ⟨-1, 0, 0⟩⟩,
    -- Right face, normal (1,0,0)
    ⟨⟨ size,  size, -size⟩, ⟨1, 0, 0⟩⟩,
    ⟨⟨ size,  size,  size⟩, ⟨1, 0, 0⟩⟩,
    ⟨⟨ size, -size,  size⟩, ⟨1, 0, 0⟩⟩,
    ⟨⟨ size, -size, -size⟩, ⟨1, 0, 0⟩⟩,
    -- Front face, normal (0,0,1)
    ⟨⟨-size,  size,  size⟩, ⟨0, 0, 1⟩⟩,
    ⟨⟨ size,  size,  size⟩, ⟨0, 0, 1⟩⟩,
    ⟨⟨ size, -size,  size⟩, ⟨0, 0, 1⟩⟩,
    ⟨⟨-size, -size,  size⟩, ⟨0, 0, 1⟩⟩,
    -- Back face, normal (0,0,-1)
    ⟨⟨-size,  size, -size⟩, ⟨0, 0, -1⟩⟩,
    ⟨⟨ size,  size, -size⟩, ⟨0, 0, -1⟩⟩,
    ⟨⟨ size, -size, -size⟩, ⟨0, 0, -1⟩⟩,
    ⟨⟨-size, -size, -size⟩, ⟨0, 0, -1⟩⟩ ]

/-- The flat `Float32Array` of the source: the 24 records flattened to
`24 * 6` floats. -/
def cubeVertexData (size : ℚ) : List ℚ :=
  (buildCubeVertices size).flatMap VertexRecord.flatten

/-- The 36-entry index table of `src/index.ts` lines 139-151, in source
order: two triangles per face. -/
def buildCubeIndices : List ℕ :=
  [ 0, 2, 1, 2, 0, 3,
    4, 6, 7, 6, 4, 5,
    8, 10, 9, 10, 8, 11,
    12, 14, 15, 14, 12, 13,
    16, 18, 17, 18, 16, 19,
    20, 22, 23, 22, 20, 21 ]

/-- The six face normals, one per group of four consecutive vertex
records, in source order. -/
def faceNormals (size : ℚ) : List Vec3 :=
  (List.range 6).map fun f =>
    ((buildCubeVertices size).getD (4 * f) default).normal

/-- C2: for every `size > 0` the cube-vertex construction returns exactly
24 records; within each of the 6 groups of 4 consecutive records all 4
records carry an identical normal, and the 6 face normals are exactly the
unit vectors +X, -X, +Y, -Y, +Z, -Z. -/
theorem buildCubeVertices_spec (size : ℚ) (hsize : 0 < size) :
    (buildCubeVertices size).length = 24 ∧
    (∀ f : Fin 6, ∀ j : Fin 4,
      ((buildCubeVertices size).getD (4 * f.val + j.val) default).normal =
        ((buildCubeVertices size).getD (4 * f.val) default).normal) ∧
    (faceNormals size).Perm
      [⟨1, 0, 0⟩, ⟨-1, 0, 0⟩, ⟨0, 1, 0⟩, ⟨0, -1, 0⟩, ⟨0, 0, 1⟩, ⟨0, 0, -1⟩] := by
  refine ⟨rfl, ?_, ?_⟩
  · intro f j
    fin_cases f <;> fin_cases j <;> rfl
  · have h : faceNormals size =
        [⟨0, 1, 0⟩, ⟨0, -1, 0⟩, ⟨-1, 0, 0⟩, ⟨1, 0, 0⟩, ⟨0, 0, 1⟩, ⟨0, 0, -1⟩] := rfl
    rw [h]
    decide

/-- Witness for C2 at `size = 1`. -/
theorem buildCubeVertices_spec_witness :
    (buildCubeVertices 1).length = 24 ∧
    (∀ f : Fin 6, ∀ j : Fin 4,
      ((buildCubeVertices 1).getD (4 * f.val + j.val) default).normal =
        ((buildCubeVertices 1).getD (4 * f.val) default).normal) ∧
    (faceNormals 1).Perm
      [⟨1, 0, 0⟩, ⟨-1, 0, 0⟩, ⟨0, 1, 0⟩, ⟨0, -1, 0⟩, ⟨0, 0, 1⟩, ⟨0, 0, -1⟩] :=
  buildCubeVertices_spec 1 (by norm_num)

/-- A per-instance record of the demo: offset position and color
(the 6-float instance stride of `src/index.ts` lines 116-133). -/
structure InstanceRecord where
  offset : Vec3
  color : Vec3
  deriving DecidableEq, Repr

/-- Flatten an instance record into its six floats, in source order
(3 offset, then 3 color). -/
def InstanceRecord.flatten (r : InstanceRecord) : List ℚ :=
  [r.offset.x, r.offset.y, r.offset.z, r.color.x, r.color.y, r.color.z]

/-- The instance-generation loop of `src/index.ts` lines 121-133,
parameterised over the random source `rng` (the stream of `Math.random()`
draws, six per instance) and the spread extent (literal `60` in the
source, from `(Math.random() - 0.5) * 60`).  Instance `i` consumes draws
`6*i .. 6*i+5`: three scaled to the offset, three taken raw as color. -/
def generateInstances (count : ℕ) (spread : ℚ) (rng : ℕ → ℚ) :
    List InstanceRecord :=
  (List.range count).map fun i =>
    { offset := ⟨(rng (6 * i) - 1/2) * spread,
                 (rng (6 * i + 1) - 1/2) * spread,
                 (rng (6 * i + 2) - 1/2) * spread⟩,
      color := ⟨rng (6 * i + 3), rng (6 * i + 4), rng (6 * i + 5)⟩ }

/-- The flat `Float32Array` of instance data: `count * 6` floats. -/
def instanceFloatData (count : ℕ) (spread : ℚ) (rng : ℕ → ℚ) : List ℚ :=
  (generateInstances count spread rng).flatMap InstanceRecord.flatten

/-- Vertex attribute formats; the demo only uses `Vector3`. -/
inductive VertexElementFormat where
  | Vector3
  deriving DecidableEq, Repr

/-- Index buffer formats; the demo only uses `UInt16`. -/
inductive IndexFormat where
  | UInt16
  deriving DecidableEq, Repr

/-- A vertex attribute declaration, mirroring the `VertexElement`
constructor arguments `(semantic, offset, format, bindingIndex,
instanceStepRate)` of the source. -/
structure VertexElement where
  semantic : String
  offset : ℕ
  format : VertexElementFormat
  bindingIndex : ℕ
  instanceStepRate : ℕ
  deriving DecidableEq, Repr

/-- A vertex buffer bound to the mesh: its data, stride in bytes, and
binding slot, mirroring `setVertexBufferBinding(buffer, stride, index)`. -/
structure VertexBufferBinding where
  data : List ℚ
  stride : ℕ
  bindingIndex : ℕ
  deriving DecidableEq, Repr

/-- A sub-mesh draw range, mirroring `addSubMesh(start, count)`. -/
structure SubMesh where
  start : ℕ
  count : ℕ
  deriving DecidableEq, Repr

/-- The observable state of a `BufferMesh` after `createCustomMesh` runs:
buffer bindings, index data and format, vertex element declarations,
sub-meshes, and the instance count. -/
structure BufferMesh where
  name : String
  vertexBufferBindings : List VertexBufferBinding
  indexData : List ℕ
  indexFormat : IndexFormat
  vertexElements : List VertexElement
  subMeshes : List SubMesh
  instanceCount : ℕ
  deriving DecidableEq, Repr

/-- The four vertex element declarations of `setVertexElements`
(`src/index.ts` lines 188-196), in source order. -/
def customVertexElements : List VertexElement :=
  [ ⟨"POSITION", 0, .Vector3, 0, 0⟩,
    ⟨"NORMAL", 12, .Vector3, 0, 0⟩,
    ⟨"INSTANCE_OFFSET", 0, .Vector3, 1, 1⟩,
    ⟨"INSTANCE_COLOR", 12, .Vector3, 1, 1⟩ ]

/-- `createCustomMesh(engine, size)` of `src/index.ts` lines 92-206,
with the ambient `Math.random()` stream made explicit as `rng`: builds
the 24 cube vertices and 36 indices, generates 4000 instances with
spread 60, binds the vertex buffer (stride 24, slot 0), the instance
buffer (stride 24, slot 1) and the 16-bit index buffer, declares the
four vertex elements, adds the single sub-mesh `(0, indices.length)` and
sets `instanceCount = 4000`. -/
def createCustomMesh (size : ℚ) (rng : ℕ → ℚ) : BufferMesh :=
  let vertices := cubeVertexData size
  let instanceCount := 4000
  let instanceData := instanceFloatData instanceCount 60 rng
  let indices := buildCubeIndices
  { name := "CustomCubeGeometry",
    vertexBufferBindings := [⟨vertices, 24, 0⟩, ⟨instanceData, 24, 1⟩],
    indexData := indices,
    indexFormat := .UInt16,
    vertexElements := customVertexElements,
    subMeshes := [⟨0, indices.length⟩],
    instanceCount := instanceCount }

/-- The build error of the spec's error model. -/
inductive GeometryConstructionError where
  | emptyInput
  deriving DecidableEq, Repr

/-- Modelled from the spec: the spec's `assembleMesh(vertices, indices,
instances)` operation with its empty-input validation ("Fails (reports a
build error) if `instances` is empty or if `vertices`/`indices` are
empty") is not present in `src/`, where `createCustomMesh` inlines the
assembly with fixed non-empty inputs; the success path follows the
assembly steps of `src/index.ts` lines 153-205 (two stride-24 streams,
UInt16 indices, the four vertex elements, one sub-mesh over all indices,
`instanceCount` set to the number of instances). -/
def assembleMesh (vertices : List VertexRecord) (indices : List ℕ)
    (instances : List InstanceRecord) :
    Except GeometryConstructionError BufferMesh :=
  if vertices.isEmpty || indices.isEmpty || instances.isEmpty then
    .error .emptyInput
  else
    .ok { name := "CustomCubeGeometry",
          vertexBufferBindings :=
            [⟨vertices.flatMap VertexRecord.flatten, 24, 0⟩,
             ⟨instances.flatMap InstanceRecord.flatten, 24, 1⟩],
          indexData := indices,
          indexFormat := .UInt16,
          vertexElements := customVertexElements,
          subMeshes := [⟨0, indices.length⟩],
          instanceCount := instances.length }

instance : Inhabited VertexBufferBinding := ⟨⟨[], 0, 0⟩⟩

/-- Flattening a list of instance records yields six floats per record. -/
theorem length_flatMap_instanceFlatten (l : List InstanceRecord) :
    (l.flatMap InstanceRecord.flatten).length = l.length * 6 := by
  induction l with
  | nil => rfl
  | cons r t ih => simp [InstanceRecord.flatten, ih]; ring

/-- C4: for every `count` and every random source producing values in
`[0,1)`, instance generation returns exactly `count` records (so the flat
array has length `count * 6`); every offset component lies in
`[-spread/2, spread/2]` and every color component lies in `[0,1]`. -/
theorem generateInstances_spec (count : ℕ) (spread : ℚ) (rng : ℕ → ℚ)
    (hspread : 0 ≤ spread) (hrng : ∀ n, 0 ≤ rng n ∧ rng n < 1) :
    (generateInstances count spread rng).length = count ∧
    (instanceFloatData count spread rng).length = count * 6 ∧
    ∀ r ∈ generateInstances count spread rng,
      (-(spread / 2) ≤ r.offset.x ∧ r.offset.x ≤ spread / 2) ∧
      (-(spread / 2) ≤ r.offset.y ∧ r.offset.y ≤ spread / 2) ∧
      (-(spread / 2) ≤ r.offset.z ∧ r.offset.z ≤ spread / 2) ∧
      (0 ≤ r.color.x ∧ r.color.x ≤ 1) ∧
      (0 ≤ r.color.y ∧ r.color.y ≤ 1) ∧
      (0 ≤ r.color.z ∧ r.color.z ≤ 1) := by
  have hlen : (generateInstances count spread rng).length = count := by
    simp [generateInstances]
  refine ⟨hlen, ?_, ?_⟩
  · rw [instanceFloatData, length_flatMap_instanceFlatten, hlen]
  · intro r hr
    simp only [generateInstances, List.mem_map, List.mem_range] at hr
    obtain ⟨i, -, rfl⟩ := hr
    have hofs : ∀ k, -(spread / 2) ≤ (rng k - 1/2) * spread ∧
        (rng k - 1/2) * spread ≤ spread / 2 := by
      intro k
      obtain ⟨h0, h1⟩ := hrng k
      constructor <;> nlinarith
    have hcol : ∀ k, 0 ≤ rng k ∧ rng k ≤ 1 := fun k =>
      ⟨(hrng k).1, le_of_lt (hrng k).2⟩
    exact ⟨hofs _, hofs _, hofs _, hcol _, hcol _, hcol _⟩

/-- Witness for C4 at `count = 2`, `spread = 60`, the constant source
`1/2`. -/
theorem generateInstances_spec_witness :
    (generateInstances 2 60 fun _ => 1/2).length = 2 ∧
    (instanceFloatData 2 60 fun _ => 1/2).length = 2 * 6 ∧
    ∀ r ∈ generateInstances 2 60 fun _ => 1/2,
      (-((60 : ℚ) / 2) ≤ r.offset.x ∧ r.offset.x ≤ 60 / 2) ∧
      (-((60 : ℚ) / 2) ≤ r.offset.y ∧ r.offset.y ≤ 60 / 2) ∧
      (-((60 : ℚ) / 2) ≤ r.offset.z ∧ r.offset.z ≤ 60 / 2) ∧
      (0 ≤ r.color.x ∧ r.color.x ≤ 1) ∧
      (0 ≤ r.color.y ∧ r.color.y ≤ 1) ∧
      (0 ≤ r.color.z ∧ r.color.z ≤ 1) :=
  generateInstances_spec 2 60 (fun _ => 1/2) (by norm_num)
    (fun _ => by norm_num)

/-- C5: the assembled mesh declares exactly two vertex binding streams,
slot 0 and slot 1, both with stride 24 bytes; the vertex elements are
position at offset 0 and normal at offset 12 on stream 0 with step
rate 0, and instance offset at offset 0 and instance color at offset 12
on stream 1 with step rate 1, all 3-component floats. -/
theorem createCustomMesh_layout (size : ℚ) (rng : ℕ → ℚ) :
    (createCustomMesh size rng).vertexBufferBindings.map
      (fun b => (b.bindingIndex, b.stride)) = [(0, 24), (1, 24)] ∧
    (createCustomMesh size rng).vertexElements =
      [ ⟨"POSITION", 0, .Vector3, 0, 0⟩,
        ⟨"NORMAL", 12, .Vector3, 0, 0⟩,
        ⟨"INSTANCE_OFFSET", 0, .Vector3, 1, 1⟩,
        ⟨"INSTANCE_COLOR", 12, .Vector3, 1, 1⟩ ] :=
  ⟨rfl, rfl⟩

/-- C6: in the demo scenario (`size = 1`, 4000 instances, spread 60) the
assembled mesh reports `instanceCount = 4000` and exactly one sub-mesh
starting at index 0 with length 36, covering all indices. -/
theorem createCustomMesh_demo (rng : ℕ → ℚ) :
    (createCustomMesh 1 rng).instanceCount = 4000 ∧
    (createCustomMesh 1 rng).subMeshes =
      [⟨0, (createCustomMesh 1 rng).indexData.length⟩] ∧
    (createCustomMesh 1 rng).indexData.length = 36 :=
  ⟨rfl, rfl, rfl⟩

/-- C1: mesh assembly fails with `GeometryConstructionError` when called
with zero instances, zero vertices or zero indices, and for every
non-empty input succeeds with a mesh whose `instanceCount` equals the
number of instances given. -/
theorem assembleMesh_spec (vertices : List VertexRecord) (indices : List ℕ)
    (instances : List InstanceRecord) :
    (vertices = [] ∨ indices = [] ∨ instances = [] →
      assembleMesh vertices indices instances =
        .error .emptyInput) ∧
    (vertices ≠ [] → indices ≠ [] → instances ≠ [] →
      ∃ m, assembleMesh vertices indices instances = .ok m ∧
        m.instanceCount = instances.length) := by
  constructor
  · intro h
    have : vertices.isEmpty || indices.isEmpty || instances.isEmpty := by
      rcases h with h | h | h <;> simp [h]
    simp [assembleMesh, this]
  · intro hv hi hins
    have hfalse : (vertices.isEmpty || indices.isEmpty || instances.isEmpty) = false := by
      simp [List.isEmpty_iff, hv, hi, hins]
    simp only [assembleMesh, hfalse, Bool.false_eq_true, if_false]
    exact ⟨_, rfl, rfl⟩

/-- Witness for C1: the error branch at empty vertices, the success
branch at the demo geometry with one instance. -/
theorem assembleMesh_spec_witness :
    (assembleMesh [] buildCubeIndices
        (generateInstances 1 60 fun _ => 1/2) =
      .error .emptyInput) ∧
    ∃ m, assembleMesh (buildCubeVertices 1) buildCubeIndices
        (generateInstances 1 60 fun _ => 1/2) = .ok m ∧
      m.instanceCount = (generateInstances 1 60 fun _ => 1/2).length :=
  ⟨(assembleMesh_spec [] buildCubeIndices
      (generateInstances 1 60 fun _ => 1/2)).1 (Or.inl rfl),
   (assembleMesh_spec (buildCubeVertices 1) buildCubeIndices
      (generateInstances 1 60 fun _ => 1/2)).2
    (by simp [buildCubeVertices]) (by simp [buildCubeIndices])
    (by simp [generateInstances])⟩

/-- C10: face-locality of the index table: for every face `f` the six
indices belonging to face `f` all lie in `[4*f, 4*f + 4)`, so no
triangle references vertices of two different faces, and each of the 24
vertices is referenced by at least one triangle. -/
theorem buildCubeIndices_faceLocal :
    (∀ f : Fin 6, ∀ j : Fin 6,
      4 * f.val ≤ buildCubeIndices.getD (6 * f.val + j.val) 0 ∧
      buildCubeIndices.getD (6 * f.val + j.val) 0 < 4 * f.val + 4) ∧
    (∀ v : Fin 24, v.val ∈ buildCubeIndices) := by
  decide

/-- The vertex record referenced by entry `k` of the index table. -/
def triVertex (size : ℚ) (k : ℕ) : VertexRecord :=
  (buildCubeVertices size).getD (buildCubeIndices.getD k 0) default

/-- The cross product of the first two edges of triangle `t` of the
index table (entries `3*t`, `3*t+1`, `3*t+2`). -/
def triCross (size : ℚ) (t : ℕ) : Vec3 :=
  let p0 := (triVertex size (3 * t)).position
  let p1 := (triVertex size (3 * t + 1)).position
  let p2 := (triVertex size (3 * t + 2)).position
  Vec3.cross (p1.sub p0) (p2.sub p1)

/-- The normal of the face triangle `t` belongs to (the normal stored on
the triangle's own first vertex). -/
def triFaceNormal (size : ℚ) (t : ℕ) : Vec3 :=
  (triVertex size (3 * t)).normal

/-- C3: the cube index table contains exactly 36 values, every value
lies in `[0, 24)`, and the 12 triangles wind consistently outward: for
each triangle, the cross product of its first two edges is a positive
multiple of the normal of the face the triangle belongs to. -/
theorem buildCubeIndices_spec (size : ℚ) (hsize : 0 < size) :
    buildCubeIndices.length = 36 ∧
    (∀ i ∈ buildCubeIndices, i < 24) ∧
    ∀ t : Fin 12, ∃ c > 0,
      triCross size t.val = Vec3.smul c (triFaceNormal size t.val) := by
  refine ⟨rfl, by decide, ?_⟩
  intro t
  refine ⟨4 * size ^ 2, by positivity, ?_⟩
  fin_cases t <;>
    · simp only [triCross, triVertex, triFaceNormal, buildCubeIndices,
        buildCubeVertices, Vec3.cross, Vec3.sub, Vec3.smul, List.getD,
        List.get?, Option.getD_some, Vec3.mk.injEq]
      refine ⟨by ring, by ring, by ring⟩

/-- Witness for C3 at `size = 1`, triangle 0. -/
theorem buildCubeIndices_spec_witness :
    buildCubeIndices.length = 36 ∧
    (∀ i ∈ buildCubeIndices, i < 24) ∧
    ∀ t : Fin 12, ∃ c > 0,
      triCross 1 t.val = Vec3.smul c (triFaceNormal 1 t.val) :=
  buildCubeIndices_spec 1 (by norm_num)

/-- C9: cube geometry is homogeneous in `size`: the vertex records equal
the `size = 1` records with positions scaled by `size` and normals
unchanged; the index table, the instance data, the vertex elements, the
strides and the instance count do not depend on `size`. -/
theorem createCustomMesh_homogeneous (size : ℚ) (rng : ℕ → ℚ) :
    buildCubeVertices size = (buildCubeVertices 1).map
      (fun v => ⟨Vec3.smul size v.position, v.normal⟩) ∧
    (createCustomMesh size rng).indexData =
      (createCustomMesh 1 rng).indexData ∧
    ((createCustomMesh size rng).vertexBufferBindings.getD 1 default).data =
      ((createCustomMesh 1 rng).vertexBufferBindings.getD 1 default).data ∧
    (createCustomMesh size rng).vertexElements =
      (createCustomMesh 1 rng).vertexElements ∧
    (createCustomMesh size rng).vertexBufferBindings.map
        VertexBufferBinding.stride =
      (createCustomMesh 1 rng).vertexBufferBindings.map
        VertexBufferBinding.stride ∧
    (createCustomMesh size rng).subMeshes = (createCustomMesh 1 rng).subMeshes ∧
    (createCustomMesh size rng).instanceCount = 4000 := by
  refine ⟨?_, rfl, rfl, rfl, rfl, rfl, rfl⟩
  simp only [buildCubeVertices, List.map, Vec3.smul, VertexRecord.mk.injEq,
    Vec3.mk.injEq, List.cons.injEq, and_true, List.map_nil]
  norm_num

set_option maxRecDepth 8000 in
/-- C7: vertex and index construction do not depend on the random
source (two runs with the same `size` yield identical vertex and index
data), while instance generation does: there are two random sources,
both producing values in `[0,1)`, for which the generated instance
arrays differ. -/
theorem construction_determinism :
    (∀ (size : ℚ) (rng₁ rng₂ : ℕ → ℚ),
      ((createCustomMesh size rng₁).vertexBufferBindings.getD 0 default).data =
        ((createCustomMesh size rng₂).vertexBufferBindings.getD 0 default).data ∧
      (createCustomMesh size rng₁).indexData =
        (createCustomMesh size rng₂).indexData) ∧
    ∃ rng₁ rng₂ : ℕ → ℚ,
      (∀ n, 0 ≤ rng₁ n ∧ rng₁ n < 1) ∧
      (∀ n, 0 ≤ rng₂ n ∧ rng₂ n < 1) ∧
      generateInstances 1 60 rng₁ ≠ generateInstances 1 60 rng₂ := by
  refine ⟨fun size rng₁ rng₂ => ⟨rfl, rfl⟩,
    (fun _ => 0), (fun _ => 1/2), fun n => by norm_num,
    fun n => by norm_num, ?_⟩
  simp only [generateInstances, List.range_succ, List.range_zero,
    List.nil_append, List.map_cons, List.map_nil, ne_eq, List.cons.injEq,
    InstanceRecord.mk.injEq, Vec3.mk.injEq, and_true]
  norm_num

/-- A 4-component vector, standing for GLSL `vec4`. -/
structure Vec4 where
  x : ℚ
  y : ℚ
  z : ℚ
  w : ℚ
  deriving DecidableEq, Repr

/-- A 4x4 matrix, standing for GLSL `mat4`, row-indexed then
column-indexed. -/
abbrev Mat4 := Fin 4 → Fin 4 → ℚ

/-- Matrix-vector product, the GLSL `mat4 * vec4`. -/
def Mat4.mulVec (m : Mat4) (v : Vec4) : Vec4 :=
  ⟨m 0 0 * v.x + m 0 1 * v.y + m 0 2 * v.z + m 0 3 * v.w,
   m 1 0 * v.x + m 1 1 * v.y + m 1 2 * v.z + m 1 3 * v.w,
   m 2 0 * v.x + m 2 1 * v.y + m 2 2 * v.z + m 2 3 * v.w,
   m 3 0 * v.x + m 3 1 * v.y + m 3 2 * v.z + m 3 3 * v.w⟩

/-- The vertex stage of `initCustomShader` (`src/index.ts` lines
225-245), statement by statement: `vec4 position = POSITION;
position.xyz += INSTANCE_OFFSET; gl_Position = renderer_MVPMat *
position; v_color = INSTANCE_COLOR;`.  The uniform `renderer_MVMat` is
declared but unused in the source; it is kept as a parameter.  The
result is the pair `(gl_Position, v_color)`. -/
def vertexShaderMain (rendererMVPMat rendererMVMat : Mat4)
    (basePosition : Vec4) (instanceOffset instanceColor : Vec3) :
    Vec4 × Vec3 :=
  let position := basePosition
  let position : Vec4 := ⟨position.x + instanceOffset.x,
    position.y + instanceOffset.y, position.z + instanceOffset.z,
    position.w⟩
  let glPosition := Mat4.mulVec rendererMVPMat position
  let vColor := instanceColor
  (glPosition, vColor)

/-- The fragment stage of `initCustomShader` (`src/index.ts` lines
249-258): `vec4 color = vec4(v_color, 1.0); gl_FragColor = color;`.
The uniform `u_color` is declared but unused in the source; it is kept
as a parameter. -/
def fragmentShaderMain (uColor : Vec4) (vColor : Vec3) : Vec4 :=
  let color : Vec4 := ⟨vColor.x, vColor.y, vColor.z, 1⟩
  color

/-- The spec-side description of adding a per-instance offset to a base
vertex position: the offset is added to the `xyz` components, `w` is
untouched. -/
def Vec4.addOffset (p : Vec4) (o : Vec3) : Vec4 :=
  ⟨p.x + o.x, p.y + o.y, p.z + o.z, p.w⟩

/-- C8: for every vertex and instance input, the vertex stage adds the
per-instance offset to the base position before applying the
model-view-projection transform and forwards the per-instance color
unchanged (independently of the unused model-view uniform); the fragment
stage outputs the interpolated color with alpha exactly 1, independently
of the unused color uniform. -/
theorem shader_pair_spec (mvp mv : Mat4) (basePosition : Vec4)
    (instanceOffset instanceColor : Vec3) (uColor : Vec4) :
    (vertexShaderMain mvp mv basePosition instanceOffset instanceColor).1 =
      Mat4.mulVec mvp (basePosition.addOffset instanceOffset) ∧
    (vertexShaderMain mvp mv basePosition instanceOffset instanceColor).2 =
      instanceColor ∧
    (∀ mv₂ : Mat4,
      vertexShaderMain mvp mv₂ basePosition instanceOffset instanceColor =
        vertexShaderMain mvp mv basePosition instanceOffset instanceColor) ∧
    (fragmentShaderMain uColor instanceColor).x = instanceColor.x ∧
    (fragmentShaderMain uColor instanceColor).y = instanceColor.y ∧
    (fragmentShaderMain uColor instanceColor).z = instanceColor.z ∧
    (fragmentShaderMain uColor instanceColor).w = 1 ∧
    ∀ uColor₂ : Vec4,
      fragmentShaderMain uColor₂ instanceColor =
        fragmentShaderMain uColor instanceColor :=
  ⟨rfl, rfl, fun _ => rfl, rfl, rfl, rfl, rfl, fun _ => rfl⟩
